import Mathlib

/-!
Shallow embedding of the Short_Cutteer repository's Windows-hook wrapper
layer (`hook/windows`), its input-event constructors
(`hookCommonInputKey.go`) and the management-UI message layer, together
with proofs about the spec's claims on them.

Conventions of the embedding:
* Machine integers are modelled as `Nat` (`uintptr` values are the
  non-negative residues modulo `2 ^ 64`; the C `-1` sentinel of
  `GetMessageW` is the value `2 ^ 64 - 1`).
* A Go `panic` is modelled as `Except.error`; a normal return is
  `Except.ok`.  A function whose result is always `Except.ok` therefore
  never panics.
* Each wrapper performs exactly one OS call.  The outcome of that call is
  an explicit argument of type `OsCallResult` (the `uintptr` result and
  the error value that `Call` reports alongside it), and the wrapper's
  output records what it logged and what it returned.
-/

/-- Hook id for the low-level keyboard hook (`WH_KEYBOARD_LL = 13`). -/
def WH_KEYBOARD_LL : Nat := 13

/-- Virtual key code of the Backspace key. -/
def VK_BACK : Nat := 0x08

/-- Virtual key code of the Tab key. -/
def VK_TAB : Nat := 0x09

/-- Virtual key code of the Enter key. -/
def VK_RETURN : Nat := 0x0D

/-- Virtual key code of the Shift key. -/
def VK_SHIFT : Nat := 0x10

/-- Virtual key code of the Ctrl key. -/
def VK_CONTROL : Nat := 0x11

/-- Virtual key code of the Alt key (`VK_MENU`). -/
def VK_MENU : Nat := 0x12

/-- Virtual key code of the Caps Lock key. -/
def VK_CAPITAL : Nat := 0x14

/-- Virtual key code of the Space key. -/
def VK_SPACE : Nat := 0x20

/-- Virtual key code of the End key. -/
def VK_END : Nat := 0x23

/-- Virtual key code of the Home key. -/
def VK_HOME : Nat := 0x24

/-- Virtual key code of the Left Arrow key. -/
def VK_LEFT : Nat := 0x25

/-- Virtual key code of the Up Arrow key. -/
def VK_UP : Nat := 0x26

/-- Virtual key code of the Right Arrow key. -/
def VK_RIGHT : Nat := 0x27

/-- Virtual key code of the Down Arrow key. -/
def VK_DOWN : Nat := 0x28

/-- Input event type: mouse. -/
def INPUT_MOUSE : Nat := 0

/-- Input event type: keyboard. -/
def INPUT_KEYBOARD : Nat := 1

/-- Input event type: hardware. -/
def INPUT_HARDWARE : Nat := 2

/-- Keystroke flag: extended key. -/
def KEYEVENTF_EXTENDEDKEY : Nat := 0x0001

/-- Keystroke flag: key up. -/
def KEYEVENTF_KEYUP : Nat := 0x0002

/-- Keystroke flag: scan code mode. -/
def KEYEVENTF_SCANCODE : Nat := 0x0008

/-- Keystroke flag: unicode mode. -/
def KEYEVENTF_UNICODE : Nat := 0x0004

/-- `KEYBDINPUT`: a simulated keyboard event (virtual key, scan code,
flags, timestamp, extra info).  All fields are machine integers modelled
as `Nat`. -/
structure KEYBDINPUT where
  WVk : Nat
  WScan : Nat
  DwFlags : Nat
  Time : Nat
  DwExtraInfo : Nat
deriving Repr, DecidableEq

/-- The Go zero value of `KEYBDINPUT` (all fields zero-initialized). -/
def KEYBDINPUT.zero : KEYBDINPUT :=
  { WVk := 0, WScan := 0, DwFlags := 0, Time := 0, DwExtraInfo := 0 }

/-- `TagINPUT`: one input event; `InputType` selects the event class and
`Ki` holds the keyboard payload.  (The hook package spells the fields
`inputType`/`ki`; the exported spelling used by the consumers is kept.) -/
structure TagINPUT where
  InputType : Nat
  Ki : KEYBDINPUT
  padding : Nat
deriving Repr, DecidableEq

/-- `tagInputKeyboard`: base keyboard input template.  The Go composite
literal `TagINPUT{InputType: INPUT_KEYBOARD}` zero-initializes every
other field. -/
def tagInputKeyboard : TagINPUT :=
  { InputType := INPUT_KEYBOARD, Ki := KEYBDINPUT.zero, padding := 0 }

/-- `tagInputShiftDown`: key-down event for the Shift key. -/
def tagInputShiftDown : TagINPUT :=
  let tagInput := tagInputKeyboard
  { tagInput with Ki := { tagInput.Ki with WVk := VK_SHIFT } }

/-- `tagInputShiftUp`: key-up event for the Shift key, built from the
key-down event by adding the key-up flag. -/
def tagInputShiftUp : TagINPUT :=
  let tagInput := tagInputShiftDown
  { tagInput with Ki := { tagInput.Ki with DwFlags := KEYEVENTF_KEYUP } }

/-- `tagInputCtrlDown`: key-down event for the Ctrl key. -/
def tagInputCtrlDown : TagINPUT :=
  let tagInput := tagInputKeyboard
  { tagInput with Ki := { tagInput.Ki with WVk := VK_CONTROL } }

/-- `tagInputCtrlUp`: key-up event for the Ctrl key. -/
def tagInputCtrlUp : TagINPUT :=
  let tagInput := tagInputCtrlDown
  { tagInput with Ki := { tagInput.Ki with DwFlags := KEYEVENTF_KEYUP } }

/-- `tagInputAltDown`: key-down event for the Alt key. -/
def tagInputAltDown : TagINPUT :=
  let tagInput := tagInputKeyboard
  { tagInput with Ki := { tagInput.Ki with WVk := VK_MENU } }

/-- `tagInputAltUp`: key-up event for the Alt key. -/
def tagInputAltUp : TagINPUT :=
  let tagInput := tagInputAltDown
  { tagInput with Ki := { tagInput.Ki with DwFlags := KEYEVENTF_KEYUP } }

/-- Outcome of a single `Proc.Call` into user32.dll: the `uintptr` result
and the error value reported alongside it (the string that would be
logged on failure). -/
structure OsCallResult where
  result : Nat
  err : String
deriving Repr, DecidableEq

/-- `LoadDLLs` loads all required DLLs and panics if an error occurred.
`loadErr` is the outcome of `winDLLUser32.Load()` (`some e` when loading
failed with error text `e`).  The panic is modelled as `Except.error`;
the function has no error-return channel (its Go return type is void). -/
def LoadDLLs (loadErr : Option String) : Except String Unit :=
  match loadErr with
  | some e => Except.error ("LoadDLL error" ++ e)
  | none => Except.ok ()

/-- `SetWindowsHookExW` wrapper: returns the raw OS call result as the
hook handle, with no null check of its own. -/
def SetWindowsHookExW (os : OsCallResult) : Nat :=
  os.result

/-- `UnhookWindowsHookEx` wrapper.  Output: the log lines emitted and the
boolean returned.  On OS result `0` it logs the error and returns
`false`; otherwise it returns `true` with no log.  Always `Except.ok`:
the function never panics. -/
def UnhookWindowsHookEx (os : OsCallResult) :
    Except String (List String × Bool) :=
  Except.ok
    (if os.result = 0 then (["UnhookWindowsHookEx error: " ++ os.err], false)
     else ([], true))

/-- `GetMessageW` wrapper.  Output: the log lines emitted and the boolean
returned.  On OS result `0` it logs the error and returns `false`;
any other result (including the `uintptr` image `2 ^ 64 - 1` of `-1`)
returns `true` with no log.  Always `Except.ok`: the function never
panics. -/
def GetMessageW (os : OsCallResult) :
    Except String (List String × Bool) :=
  Except.ok
    (if os.result = 0 then (["GetMessageW error: " ++ os.err], false)
     else ([], true))

/-- The argument record of the single OS call that `SendInput` makes:
the requested event count, the input structure argument and the reported
structure size. -/
structure SendInputOsCall where
  cInputs : Nat
  pInputs : TagINPUT
  cbSize : Int
deriving Repr, DecidableEq

/-- `SendInput` wrapper.  Output: the list of OS calls made (always
exactly one, with the caller's arguments), the log lines emitted, and
the `uint` returned.  On OS result `0` it logs the error and returns
`0`; otherwise it returns the OS result (the count of events the OS
accepted) with no log.  Always `Except.ok`: the function never
panics. -/
def SendInput (cInputs : Nat) (pInputs : TagINPUT) (cbSize : Int)
    (os : OsCallResult) :
    Except String (List SendInputOsCall × List String × Nat) :=
  Except.ok
    ([SendInputOsCall.mk cInputs pInputs cbSize],
     if os.result = 0 then (["SendInput error: " ++ os.err], 0)
     else ([], os.result))

/-- The `uint` value that a `SendInput` invocation returned to its
caller. -/
def sendInputResultValue
    (r : Except String (List SendInputOsCall × List String × Nat)) : Nat :=
  match r with
  | Except.ok (_, _, n) => n
  | Except.error _ => 0

/-- Modelled from the spec: the hook-install operation of the Hook
Channel (`install(callback) → handle; fails fatally (process cannot
function) if the underlying OS hook installation fails`).  The caller of
the `SetWindowsHookExW` wrapper is not among the provided source files;
per the spec a null handle is a terminal startup error, modelled as
`Except.error` (a panic), so the process never continues with an invalid
handle. -/
def installHook (os : OsCallResult) : Except String Nat :=
  let handle := SetWindowsHookExW os
  if handle = 0 then Except.error "SetWindowsHookExW returned a null hook handle"
  else Except.ok handle

/-- One hex digit (lower case, as produced by `JSON.stringify`'s
`\uXXXX` escapes). -/
def hexDigit (n : Nat) : Char :=
  if n < 10 then Char.ofNat (48 + n) else Char.ofNat (87 + n)

/-- JSON string escaping of one character, as `JSON.stringify` performs
it on the payload fields. -/
def jsonEscapeChar (c : Char) : String :=
  if c == '"' then "\\\""
  else if c == '\\' then "\\\\"
  else if c == '\u0008' then "\\b"
  else if c == '\t' then "\\t"
  else if c == '\n' then "\\n"
  else if c == '\u000C' then "\\f"
  else if c == '\r' then "\\r"
  else if c.toNat < 32 then
    "\\u00" ++ String.singleton (hexDigit (c.toNat / 16)) ++
      String.singleton (hexDigit (c.toNat % 16))
  else String.singleton c

/-- A JSON string literal for `s` (quote, escape, quote). -/
def jsonQuote (s : String) : String :=
  "\"" ++ String.join (s.data.map jsonEscapeChar) ++ "\""

/-- Opening brace character as a string. -/
def leftBrace : String := String.singleton (Char.ofNat 123)

/-- Closing brace character as a string. -/
def rightBrace : String := String.singleton (Char.ofNat 125)

/-- `JSON.stringify({title, description, command, output})`: the
serialized write payload built by `sendNewCommand`. -/
def jsonStringifyCommand (title description command output : String) :
    String :=
  leftBrace ++
  "\"title\":" ++ jsonQuote title ++
  ",\"description\":" ++ jsonQuote description ++
  ",\"command\":" ++ jsonQuote command ++
  ",\"output\":" ++ jsonQuote output ++
  rightBrace

/-- UI message-kind constant `messageKindCommand`. -/
def messageKindCommand : String := "command"

/-- UI operation constant `messageOperationWrite`. -/
def messageOperationWrite : String := "write"

/-- UI operation constant `messageOperationDelete`. -/
def messageOperationDelete : String := "delete"

/-- The tagged message object `{kind, operation, data}` that the UI
passes to `send`. -/
structure CommandMessage where
  kind : String
  operation : String
  data : String
deriving Repr, DecidableEq

/-- `sendCommand(kind, operation, data)`: builds the tagged message that
is handed to the transport's `send`. -/
def sendCommand (kind operation data : String) : CommandMessage :=
  { kind := kind, operation := operation, data := data }

/-- `sendNewCommand(title, description, command, output)`: serializes the
four fields and sends a write command message. -/
def sendNewCommand (title description command output : String) :
    CommandMessage :=
  sendCommand messageKindCommand messageOperationWrite
    (jsonStringifyCommand title description command output)

/-- `sendDeleteCommand(title)`: sends a delete command message whose data
payload is the bare title string. -/
def sendDeleteCommand (title : String) : CommandMessage :=
  sendCommand messageKindCommand messageOperationDelete title

/-- The four input fields of the add-command modal form (`title`,
`description`, `command` i.e. the trigger text, `output`). -/
structure ModalForm where
  title : String
  description : String
  command : String
  output : String
deriving Repr, DecidableEq

/-- `validateModal(form)`: if the title field is empty the form is
rejected and nothing is sent (`none`); otherwise the write message built
by `sendNewCommand` from the four fields is sent (`some`). -/
def validateModal (form : ModalForm) : Option CommandMessage :=
  if form.title = "" then none
  else some (sendNewCommand form.title form.description form.command form.output)

/-- A keystroke event as seen by the Trigger Matcher: virtual key code,
key-up flag, and the synthetic-origin flag (`LLKHF_INJECTED`). -/
structure KeystrokeEvent where
  vkCode : Nat
  isKeyUp : Bool
  synthetic : Bool
deriving Repr, DecidableEq

/-- The Trigger Matcher's state: the rolling buffer of recently typed
characters (newest last) and the modifier down-state snapshot. -/
structure MatcherState where
  buffer : List Char
  shiftDown : Bool
  ctrlDown : Bool
  altDown : Bool
deriving Repr, DecidableEq

/-- Whether `vk` is one of the tracked modifier keys (Shift, Ctrl,
Alt). -/
def isModifierKey (vk : Nat) : Bool :=
  vk == VK_SHIFT || vk == VK_CONTROL || vk == VK_MENU

/-- Whether `vk` is a non-character control key that invalidates the
rolling buffer (arrows, Home/End, Backspace). -/
def isBufferInvalidatingKey (vk : Nat) : Bool :=
  vk == VK_LEFT || vk == VK_UP || vk == VK_RIGHT || vk == VK_DOWN ||
  vk == VK_HOME || vk == VK_END || vk == VK_BACK

/-- Set the down-state of the modifier `vk` in the snapshot. -/
def setModifier (st : MatcherState) (vk : Nat) (down : Bool) :
    MatcherState :=
  if vk == VK_SHIFT then { st with shiftDown := down }
  else if vk == VK_CONTROL then { st with ctrlDown := down }
  else if vk == VK_MENU then { st with altDown := down }
  else st

/-- The registered command (trigger, output) whose trigger is a
non-empty suffix of the buffer and is longest among such, if any. -/
def longestSuffixMatch (registry : List (String × String))
    (buf : List Char) : Option (String × String) :=
  registry.foldl
    (fun best e =>
      if !e.1.isEmpty && e.1.data.isSuffixOf buf then
        match best with
        | none => some e
        | some b => if b.1.length < e.1.length then some e else some b
      else best)
    none

/-- Modelled from the spec: one transition of the Trigger Matcher state
machine (the matcher's source file is not among the provided files;
§4.3 of the spec defines it).  Synthetic events are ignored; a real
modifier key updates the modifier snapshot; a real buffer-invalidating
control key clears the buffer; any other real key-down is translated to
a character (where translatable), appended to the buffer with oldest
characters evicted beyond `maxLen`, and the buffer's suffixes are
matched longest-first against the registry; on a match the consumed
portion is cleared and the matched command is returned for replay. -/
def matcherStep (registry : List (String × String))
    (translate : Nat → Bool → Option Char) (maxLen : Nat)
    (st : MatcherState) (ev : KeystrokeEvent) :
    MatcherState × Option (String × String) :=
  if ev.synthetic then (st, none)
  else if ev.isKeyUp then
    (if isModifierKey ev.vkCode then setModifier st ev.vkCode false else st,
     none)
  else if isModifierKey ev.vkCode then
    (setModifier st ev.vkCode true, none)
  else if isBufferInvalidatingKey ev.vkCode then
    ({ st with buffer := [] }, none)
  else
    match translate ev.vkCode st.shiftDown with
    | none => (st, none)
    | some c =>
      let grown := st.buffer ++ [c]
      let buf := grown.drop (grown.length - maxLen)
      match longestSuffixMatch registry buf with
      | none => ({ st with buffer := buf }, none)
      | some cmd =>
        ({ st with buffer := buf.take (buf.length - cmd.1.length) },
         some cmd)

/-- Claim C1: `SendInput` submits exactly one batch to the OS per call,
with the requested count `cInputs` as the count of structures, with no
retries, and returns to the caller the OS-reported count of accepted
events. -/
theorem SendInput_single_submission_requested_count
    (cInputs : Nat) (pInputs : TagINPUT) (cbSize : Int)
    (os : OsCallResult) :
    ∃ logs, SendInput cInputs pInputs cbSize os =
      Except.ok ([SendInputOsCall.mk cInputs pInputs cbSize], logs,
        os.result) := by
  by_cases h : os.result = 0
  · exact ⟨["SendInput error: " ++ os.err], by simp [SendInput, h]⟩
  · exact ⟨[], by simp [SendInput, h]⟩

/-- Claim C2: on a keystroke event flagged synthetic the Trigger Matcher
leaves its state (in particular the rolling buffer) unchanged and fires
no match, so replayed output can never re-trigger. -/
theorem matcherStep_ignores_synthetic (registry : List (String × String))
    (translate : Nat → Bool → Option Char) (maxLen : Nat)
    (st : MatcherState) (ev : KeystrokeEvent)
    (h : ev.synthetic = true) :
    matcherStep registry translate maxLen st ev = (st, none) := by
  simp [matcherStep, h]

/-- Witness for claim C2 at a concrete synthetic event. -/
theorem matcherStep_ignores_synthetic_witness :
    (KeystrokeEvent.mk 65 false true).synthetic = true ∧
    matcherStep [("btw", "by the way")] (fun _ _ => some 'a') 10
        (MatcherState.mk [] false false false)
        (KeystrokeEvent.mk 65 false true) =
      (MatcherState.mk [] false false false, none) :=
  ⟨rfl,
   matcherStep_ignores_synthetic [("btw", "by the way")]
     (fun _ _ => some 'a') 10 (MatcherState.mk [] false false false)
     (KeystrokeEvent.mk 65 false true) rfl⟩

/-- Claim C3: when the OS call fails (result `0`), `UnhookWindowsHookEx`
and `GetMessageW` log the error and return `false`, and `SendInput` logs
the error and returns `0`; all three return normally (`Except.ok`, i.e.
no panic or abort). -/
theorem wrappers_log_and_return_failure (os : OsCallResult)
    (h : os.result = 0) (cInputs : Nat) (pInputs : TagINPUT)
    (cbSize : Int) :
    UnhookWindowsHookEx os =
      Except.ok (["UnhookWindowsHookEx error: " ++ os.err], false) ∧
    GetMessageW os =
      Except.ok (["GetMessageW error: " ++ os.err], false) ∧
    SendInput cInputs pInputs cbSize os =
      Except.ok ([SendInputOsCall.mk cInputs pInputs cbSize],
        ["SendInput error: " ++ os.err], 0) := by
  refine ⟨?_, ?_, ?_⟩ <;>
    simp [UnhookWindowsHookEx, GetMessageW, SendInput, h]

/-- Witness for claim C3 at a concrete failed OS call. -/
theorem wrappers_log_and_return_failure_witness :
    (OsCallResult.mk 0 "e").result = 0 ∧
    (UnhookWindowsHookEx (OsCallResult.mk 0 "e") =
       Except.ok (["UnhookWindowsHookEx error: " ++ "e"], false) ∧
     GetMessageW (OsCallResult.mk 0 "e") =
       Except.ok (["GetMessageW error: " ++ "e"], false) ∧
     SendInput 1 tagInputKeyboard 40 (OsCallResult.mk 0 "e") =
       Except.ok ([SendInputOsCall.mk 1 tagInputKeyboard 40],
         ["SendInput error: " ++ "e"], 0)) :=
  ⟨rfl,
   wrappers_log_and_return_failure (OsCallResult.mk 0 "e") rfl 1
     tagInputKeyboard 40⟩

/-- Claim C4: when hook installation fails (the OS returns a null
handle, so `SetWindowsHookExW` returns `0`), the install operation fails
fatally (`Except.error`, a panic) instead of continuing with an invalid
handle. -/
theorem installHook_fatal_on_null_handle (os : OsCallResult)
    (h : os.result = 0) :
    installHook os =
      Except.error "SetWindowsHookExW returned a null hook handle" := by
  simp [installHook, SetWindowsHookExW, h]

/-- Witness for claim C4 at a concrete failed installation. -/
theorem installHook_fatal_on_null_handle_witness :
    (OsCallResult.mk 0 "e").result = 0 ∧
    installHook (OsCallResult.mk 0 "e") =
      Except.error "SetWindowsHookExW returned a null hook handle" :=
  ⟨rfl, installHook_fatal_on_null_handle (OsCallResult.mk 0 "e") rfl⟩

/-- Claim C5: when the required DLL fails to load, `LoadDLLs` panics
(`Except.error` with the `LoadDLL error` message) rather than returning
normally; it has no error-return channel. -/
theorem LoadDLLs_panics_on_load_error (e : String) :
    LoadDLLs (some e) = Except.error ("LoadDLL error" ++ e) := rfl

/-- Claim C6: every registry mutation the UI sends is a tagged message
with kind `"command"` and operation `"write"` or `"delete"`; a write
carries the four serialized fields as its data payload and a delete
carries the bare title string. -/
theorem ui_mutation_messages_tagged
    (title description command output : String) :
    sendNewCommand title description command output =
      CommandMessage.mk messageKindCommand messageOperationWrite
        (jsonStringifyCommand title description command output) ∧
    sendDeleteCommand title =
      CommandMessage.mk messageKindCommand messageOperationDelete title ∧
    messageKindCommand = "command" ∧
    messageOperationWrite = "write" ∧
    messageOperationDelete = "delete" :=
  ⟨rfl, rfl, rfl, rfl, rfl⟩

/-- Counterexample to claim C7: a form whose trigger (`command`) field
is empty but whose title is non-empty is NOT rejected — `validateModal`
sends it. -/
theorem validateModal_sends_empty_trigger :
    (ModalForm.mk "t" "d" "" "o").command = "" ∧
    validateModal (ModalForm.mk "t" "d" "" "o") ≠ none := by
  decide

/-- Claim C7 (amended): the write path rejects (does not send) exactly
the forms whose TITLE is empty; the trigger text is not validated. -/
theorem validateModal_rejects_iff_empty_title (form : ModalForm) :
    validateModal form = none ↔ form.title = "" := by
  unfold validateModal
  split
  · simp [*]
  · simp [*]

/-- Claim C8: each modifier key-down constructor yields a keyboard event
(`INPUT_KEYBOARD`) with the corresponding virtual key code and no key-up
flag, and each key-up constructor yields the key-down value with
`DwFlags` set to `KEYEVENTF_KEYUP` and everything else unchanged. -/
theorem modifier_key_constructors :
    (tagInputShiftDown.InputType = INPUT_KEYBOARD ∧
     tagInputShiftDown.Ki.WVk = VK_SHIFT ∧
     tagInputShiftDown.Ki.DwFlags = 0 ∧
     tagInputShiftUp = { tagInputShiftDown with
       Ki := { tagInputShiftDown.Ki with DwFlags := KEYEVENTF_KEYUP } }) ∧
    (tagInputCtrlDown.InputType = INPUT_KEYBOARD ∧
     tagInputCtrlDown.Ki.WVk = VK_CONTROL ∧
     tagInputCtrlDown.Ki.DwFlags = 0 ∧
     tagInputCtrlUp = { tagInputCtrlDown with
       Ki := { tagInputCtrlDown.Ki with DwFlags := KEYEVENTF_KEYUP } }) ∧
    (tagInputAltDown.InputType = INPUT_KEYBOARD ∧
     tagInputAltDown.Ki.WVk = VK_MENU ∧
     tagInputAltDown.Ki.DwFlags = 0 ∧
     tagInputAltUp = { tagInputAltDown with
       Ki := { tagInputAltDown.Ki with DwFlags := KEYEVENTF_KEYUP } }) := by
  decide

/-- Claim C9: `GetMessageW` returns `false` with a log exactly when the
OS result is `0`; every nonzero result — including `2 ^ 64 - 1`, the
`uintptr` image of the `-1` error value — yields `true` with no log. -/
theorem GetMessageW_false_iff_zero_result (os : OsCallResult) :
    (GetMessageW os =
       Except.ok (["GetMessageW error: " ++ os.err], false) ↔
     os.result = 0) ∧
    (os.result ≠ 0 → GetMessageW os = Except.ok ([], true)) ∧
    GetMessageW (OsCallResult.mk (2 ^ 64 - 1) os.err) =
      Except.ok ([], true) := by
  refine ⟨?_, ?_, ?_⟩
  · unfold GetMessageW
    by_cases h : os.result = 0 <;> simp [h]
  · intro h
    simp [GetMessageW, h]
  · have h : (2 : Nat) ^ 64 - 1 ≠ 0 := by norm_num
    simp [GetMessageW, h]

/-- Witness for claim C9 at a failed and a successful retrieval. -/
theorem GetMessageW_false_iff_zero_result_witness :
    GetMessageW (OsCallResult.mk 0 "e") =
      Except.ok (["GetMessageW error: " ++ "e"], false) ∧
    GetMessageW (OsCallResult.mk 5 "e") = Except.ok ([], true) :=
  ⟨(GetMessageW_false_iff_zero_result (OsCallResult.mk 0 "e")).1.mpr rfl,
   (GetMessageW_false_iff_zero_result (OsCallResult.mk 5 "e")).2.1
     (by decide)⟩

/-- Claim C10: `SendInput` returns `0` exactly when the OS result is
`0`, and the value it returns depends only on the OS result, never on
the error detail — so a caller cannot tell a failed submission from one
that accepted zero events. -/
theorem SendInput_zero_return_ambiguity (cInputs : Nat)
    (pInputs : TagINPUT) (cbSize : Int) (os os2 : OsCallResult) :
    (sendInputResultValue (SendInput cInputs pInputs cbSize os) = 0 ↔
      os.result = 0) ∧
    (os.result = os2.result →
      sendInputResultValue (SendInput cInputs pInputs cbSize os) =
        sendInputResultValue (SendInput cInputs pInputs cbSize os2)) := by
  constructor
  · by_cases h : os.result = 0 <;>
      simp [SendInput, sendInputResultValue, h]
  · intro he
    by_cases h : os.result = 0
    · have h2 : os2.result = 0 := he ▸ h
      simp [SendInput, sendInputResultValue, h, h2]
    · have h2 : ¬ os2.result = 0 := he ▸ h
      simp [SendInput, sendInputResultValue, h, h2, he]

/-- Witness for claim C10: a failed call and a second failed call with a
different error detail return the same value `0`. -/
theorem SendInput_zero_return_ambiguity_witness :
    sendInputResultValue
      (SendInput 1 tagInputKeyboard 40 (OsCallResult.mk 0 "a")) = 0 ∧
    sendInputResultValue
      (SendInput 1 tagInputKeyboard 40 (OsCallResult.mk 0 "a")) =
    sendInputResultValue
      (SendInput 1 tagInputKeyboard 40 (OsCallResult.mk 0 "b")) :=
  ⟨(SendInput_zero_return_ambiguity 1 tagInputKeyboard 40
      (OsCallResult.mk 0 "a") (OsCallResult.mk 0 "b")).1.mpr rfl,
   (SendInput_zero_return_ambiguity 1 tagInputKeyboard 40
      (OsCallResult.mk 0 "a") (OsCallResult.mk 0 "b")).2 rfl⟩
